import Mathlib

/-!
Shallow embedding of the order-lifecycle core of `src/index.ts`
(mi-tienda-uy-backend): the Express handlers for order creation, item
add/update/move/delete, status update, close, and the order-code generator.

Firestore documents are modelled as Lean structures; the handlers become
pure functions from the stored state (an `Option Order` for the document
fetched by id) and the request parameters to an outcome value describing
the HTTP response and the state written back.  Server timestamps are
passed in as an explicit `now : Nat` parameter.  JS `parseInt` on the
`:itemIndex` path segment yields either an integer or NaN, modelled by
`JSIdx`; the JS comparison and array primitives used by the handlers
(`<`, `>=`, `splice`, indexing, `includes`) are given their ECMAScript
semantics on that type.
-/

namespace MiTienda

/-- An entry of `items` / `wishlistItems`, as built by the add-item handler. -/
structure OrderItem where
  productId : String
  sku : String
  name : String
  price : ℚ
  quantity : Int
  color : Option String
  addedAt : Nat
deriving DecidableEq, Repr

/-- An order document in the `orders` collection. -/
structure Order where
  clientId : String
  orderCode : Option String
  status : String
  items : List OrderItem
  wishlistItems : List OrderItem
  createdAt : Nat
  updatedAt : Nat
  closedAt : Option Nat
deriving DecidableEq, Repr

/-- A product document, as read by the add-item handler. -/
structure Product where
  id : String
  sku : String
  name : String
  price : ℚ
deriving DecidableEq, Repr

/-- Result of `parseInt(itemIndex)`: an integer, or NaN for non-numeric input. -/
inductive JSIdx where
  | nan : JSIdx
  | int : Int → JSIdx
deriving DecidableEq, Repr

/-- JS `index < 0`: any comparison against NaN is false. -/
def JSIdx.ltZero : JSIdx → Bool
  | .nan => false
  | .int i => decide (i < 0)

/-- JS `index >= len`: any comparison against NaN is false. -/
def JSIdx.geLen (idx : JSIdx) (len : Nat) : Bool :=
  match idx with
  | .nan => false
  | .int i => decide ((len : Int) ≤ i)

/-- ECMAScript ToIntegerOrInfinity as applied by `Array.prototype.splice`
to its start argument: NaN becomes 0. -/
def JSIdx.toInteger : JSIdx → Int
  | .nan => 0
  | .int i => i

/-- JS `array[index]`: `undefined` (here `none`) for NaN or an
out-of-range integer. -/
def jsGet (l : List OrderItem) : JSIdx → Option OrderItem
  | .nan => none
  | .int i => if i < 0 then none else l.get? i.toNat

/-- JS `array.includes(x)` where `x` may be `undefined`:
`includes(undefined)` is false on an array with no undefined entries. -/
def jsIncludes (l : List OrderItem) : Option OrderItem → Bool
  | none => false
  | some x => l.contains x

/-- The start position actually used by `splice(start, 1)` on an array of
length `len`: negative starts count from the end (clamped at 0), others
are clamped at `len`. -/
def spliceStart (len : Nat) (start : Int) : Nat :=
  if start < 0 then ((len : Int) + start).toNat else min start.toNat len

/-- JS `array.splice(start, 1)`: the array after removal, and the removed
element (`none` when nothing was removed, in which case `splice(...)[0]`
is `undefined`). -/
def splice1 (l : List OrderItem) (start : Int) : List OrderItem × Option OrderItem :=
  let s := spliceStart l.length start
  (l.take s ++ l.drop (s + 1), l.get? s)

/-- `orderData.items[index].quantity = q`: `none` models the JS TypeError
thrown when `items[index]` is `undefined`. -/
def jsSetQuantity (l : List OrderItem) (index : JSIdx) (q : Int) :
    Option (List OrderItem) :=
  match index with
  | .nan => none
  | .int i =>
      if i < 0 then none
      else
        match l.get? i.toNat with
        | some itm => some (l.set i.toNat { itm with quantity := q })
        | none => none

/-- `listType` value accepted by `updateOrderItemSchema`. -/
inductive ListType where
  | buy : ListType
  | wishlist : ListType
deriving DecidableEq, Repr

/-- `updateOrderItemSchema`: optional nonnegative integer quantity
(the optional listType field is covered by `Option ListType`). -/
def updateOrderItemSchemaAccepts (quantity : Option Int) : Bool :=
  match quantity with
  | none => true
  | some q => decide (0 ≤ q)

/-- Outcome of the PUT `/orders/:orderId/items/:itemIndex` handler. -/
inductive UpdateOutcome where
  | notFound : UpdateOutcome
  | invalidIndex : UpdateOutcome
  | jsTypeError : UpdateOutcome
  | updated : Order → UpdateOutcome
  | updatedWithUndefined : Order → UpdateOutcome
deriving DecidableEq, Repr

/-- PUT `/orders/:orderId/items/:itemIndex` (updateOrderItem).
`stored` is the fetched order document; `now` the server timestamp used
for `updatedAt`.  `updatedWithUndefined` marks the corner where the JS
code pushes `undefined` onto a list (splice removed nothing); its payload
holds the defined entries written back. -/
def updateOrderItem (stored : Option Order) (index : JSIdx)
    (quantity : Option Int) (listType : Option ListType) (now : Nat) :
    UpdateOutcome :=
  match stored with
  | none => .notFound
  | some o =>
    if index.ltZero || index.geLen o.items.length then .invalidIndex
    else
      let step1 : Option (List OrderItem) :=
        match quantity with
        | some q => if 0 ≤ q then jsSetQuantity o.items index q else some o.items
        | none => some o.items
      match step1 with
      | none => .jsTypeError
      | some items1 =>
        match listType with
        | none => .updated { o with items := items1, updatedAt := now }
        | some .wishlist =>
            let s := splice1 items1 index.toInteger
            match s.2 with
            | some itm =>
                .updated { o with items := s.1,
                                  wishlistItems := o.wishlistItems ++ [itm],
                                  updatedAt := now }
            | none =>
                .updatedWithUndefined { o with items := s.1, updatedAt := now }
        | some .buy =>
            if jsIncludes items1 (jsGet items1 index) then
              .updated { o with items := items1, updatedAt := now }
            else
              let t := splice1 o.wishlistItems index.toInteger
              match t.2 with
              | some itm =>
                  .updated { o with items := items1 ++ [itm],
                                    wishlistItems := t.1,
                                    updatedAt := now }
              | none =>
                  .updatedWithUndefined { o with items := items1,
                                                 wishlistItems := t.1,
                                                 updatedAt := now }

/-- Outcome of the DELETE `/orders/:orderId/items/:itemIndex` handler. -/
inductive RemoveOutcome where
  | notFound : RemoveOutcome
  | invalidIndex : RemoveOutcome
  | deleted : Order → RemoveOutcome
deriving DecidableEq, Repr

/-- DELETE `/orders/:orderId/items/:itemIndex` (removeOrderItem): after the
bounds check, `items.splice(index, 1)`; the write touches `items` and
`updatedAt` only. -/
def removeOrderItem (stored : Option Order) (index : JSIdx) (now : Nat) :
    RemoveOutcome :=
  match stored with
  | none => .notFound
  | some o =>
    if index.ltZero || index.geLen o.items.length then .invalidIndex
    else .deleted { o with items := (splice1 o.items index.toInteger).1,
                           updatedAt := now }

/-- JS `color || null` in the item literal: a missing or empty-string
color becomes null. -/
def jsColorOrNull (color : Option String) : Option String :=
  match color with
  | some c => if c = "" then none else some c
  | none => none

/-- The item literal built by the POST `/orders/:orderId/items` handler
from the matched product, the request body, and the server timestamp. -/
def mkOrderItem (product : Product) (sku : String) (quantity : Int)
    (color : Option String) (now : Nat) : OrderItem :=
  { productId := product.id, sku := sku, name := product.name,
    price := product.price, quantity := quantity,
    color := jsColorOrNull color, addedAt := now }

/-- Firestore `FieldValue.arrayUnion(x)`: appends `x` only when no element
equal to it is already present. -/
def arrayUnion (l : List OrderItem) (x : OrderItem) : List OrderItem :=
  if l.contains x then l else l ++ [x]

/-- Outcome of the POST `/orders/:orderId/items` handler. -/
inductive AddOutcome where
  | productNotFound : AddOutcome
  | orderNotFound : AddOutcome
  | updated : Order → AddOutcome
deriving DecidableEq, Repr

/-- POST `/orders/:orderId/items` (addItemToOrder): resolve the product by
SKU, check the order exists, build the item, write
`items = arrayUnion(item)` and `updatedAt`. -/
def addItemToOrder (product : Option Product) (stored : Option Order)
    (sku : String) (quantity : Int) (color : Option String) (now : Nat) :
    AddOutcome :=
  match product with
  | none => .productNotFound
  | some p =>
    match stored with
    | none => .orderNotFound
    | some o =>
        .updated { o with
          items := arrayUnion o.items (mkOrderItem p sku quantity color now),
          updatedAt := now }

/-- `(data?.items || []).reduce((sum, item) => sum + item.price * item.quantity, 0)`
as computed by the GET handlers. -/
def subtotal (items : List OrderItem) : ℚ :=
  items.foldl (fun sum item => sum + item.price * item.quantity) 0

/-- The response of GET `/orders/:orderId` / GET `/orders/code/:orderCode`:
the stored document plus a freshly computed subtotal. -/
structure OrderView where
  order : Order
  subtotal : ℚ
deriving DecidableEq, Repr

/-- GET `/orders/:orderId` (getOrder): 404 when the document is absent,
otherwise the document with `subtotal` computed from `items`. -/
def getOrder (stored : Option Order) : Option OrderView :=
  match stored with
  | none => none
  | some o => some { order := o, subtotal := subtotal o.items }

/-- GET `/orders/code/:orderCode` (getOrderByCode): `lookup` is the result
of the `orderCode ==` query; same response shape as `getOrder`. -/
def getOrderByCode (lookup : Option Order) : Option OrderView :=
  match lookup with
  | none => none
  | some o => some { order := o, subtotal := subtotal o.items }

/-- The `validStatuses` array of the PUT `/orders/:orderId/status` handler. -/
def validStatuses : List String :=
  ["pending", "confirmed", "processing", "ready", "completed", "cancelled"]

/-- Outcome of the PUT `/orders/:orderId/status` handler. -/
inductive StatusOutcome where
  | invalidStatus : StatusOutcome
  | notFound : StatusOutcome
  | updated : Order → StatusOutcome
deriving DecidableEq, Repr

/-- PUT `/orders/:orderId/status` (setOrderStatus): the status string is
validated before the document is fetched; on success `status` and
`updatedAt` are written. -/
def setOrderStatus (stored : Option Order) (status : String) (now : Nat) :
    StatusOutcome :=
  if ¬ validStatuses.contains status then .invalidStatus
  else
    match stored with
    | none => .notFound
    | some o => .updated { o with status := status, updatedAt := now }

/-- Outcome of the POST `/orders/:orderId/close` handler. -/
inductive CloseOutcome where
  | notFound : CloseOutcome
  | closed : Order → CloseOutcome
deriving DecidableEq, Repr

/-- POST `/orders/:orderId/close` (closeOrder): writes `status: 'closed'`
and `closedAt` only, regardless of the current status. -/
def closeOrder (stored : Option Order) (now : Nat) : CloseOutcome :=
  match stored with
  | none => .notFound
  | some o => .closed { o with status := "closed", closedAt := some now }

/-- The `chars` alphabet of `generateOrderCode`. -/
def orderCodeChars : List Char :=
  "ABCDEFGHIJKLMNOPQRSTUVWXYZ0123456789".toList

/-- `generateOrderCode`: eight draws of `Math.floor(Math.random() * 36)`,
each an index into the 36-character alphabet. -/
def generateOrderCode (draws : Fin 8 → Fin 36) : String :=
  String.mk (List.ofFn fun i : Fin 8 =>
    orderCodeChars.get (Fin.cast (by decide) (draws i)))

/-- POST `/orders` (createOrder): the stored order after both steps — the
initial document (pending, empty lists) followed by the `orderCode`
update. -/
def createOrder (clientId : String) (now : Nat) (draws : Fin 8 → Fin 36) :
    Order :=
  { clientId := clientId, orderCode := some (generateOrderCode draws),
    status := "pending", items := [], wishlistItems := [],
    createdAt := now, updatedAt := now, closedAt := none }

/-- Concrete fixture: an item as built from product `prodA`. -/
def itemA : OrderItem :=
  { productId := "p1", sku := "SKU001", name := "Product 1", price := 100,
    quantity := 2, color := none, addedAt := 1 }

/-- Concrete fixture: a second, distinct item. -/
def itemB : OrderItem :=
  { productId := "p2", sku := "SKU002", name := "Product 2", price := 50,
    quantity := 1, color := none, addedAt := 2 }

/-- Concrete fixture: an order holding `itemA` in `items` and `itemB` in
`wishlistItems`. -/
def sampleOrder : Order :=
  { clientId := "c1", orderCode := some "AAAAAAAA", status := "pending",
    items := [itemA], wishlistItems := [itemB],
    createdAt := 0, updatedAt := 0, closedAt := none }

/-- Concrete fixture: `sampleOrder` with an empty wishlist. -/
def orderEmptyWishlist : Order := { sampleOrder with wishlistItems := [] }

/-- Concrete fixture: the product matched by SKU001. -/
def prodA : Product :=
  { id := "p1", sku := "SKU001", name := "Product 1", price := 100 }

/-- Concrete fixture: a freshly created order with empty lists. -/
def emptyOrder : Order :=
  { clientId := "c1", orderCode := some "AAAAAAAA", status := "pending",
    items := [], wishlistItems := [],
    createdAt := 0, updatedAt := 0, closedAt := none }

/-- Concrete fixture: `emptyOrder` after one add of SKU001 at timestamp 5. -/
def orderOneAdd : Order :=
  { emptyOrder with items := [mkOrderItem prodA "SKU001" 2 none 5],
                    updatedAt := 5 }

end MiTienda

namespace MiTienda

theorem foldl_add_map (f : OrderItem → ℚ) (l : List OrderItem) (a : ℚ) :
    l.foldl (fun sum item => sum + f item) a = a + (l.map f).sum := by
  induction l generalizing a with
  | nil => simp
  | cons x xs ih => simp [ih, add_assoc]

theorem subtotal_eq_sum (l : List OrderItem) :
    subtotal l = (l.map fun item => item.price * (item.quantity : ℚ)).sum := by
  simpa using foldl_add_map (fun item => item.price * (item.quantity : ℚ)) l 0

/-- C4: the subtotal returned by getOrder and getOrderByCode is computed as
the sum of price * quantity over `items` only; any wishlist contents leave
it unchanged, and the empty list gives 0. -/
theorem getOrder_subtotal_spec (o : Order) :
    getOrder (some o) = some { order := o, subtotal := subtotal o.items }
    ∧ getOrderByCode (some o) = some { order := o, subtotal := subtotal o.items }
    ∧ subtotal o.items = (o.items.map fun item => item.price * (item.quantity : ℚ)).sum
    ∧ subtotal [] = 0
    ∧ (∀ wl : List OrderItem,
        getOrder (some { o with wishlistItems := wl })
          = some { order := { o with wishlistItems := wl },
                   subtotal := subtotal o.items }) := by
  refine ⟨rfl, rfl, subtotal_eq_sum o.items, rfl, fun wl => rfl⟩

/-- C5: setOrderStatus succeeds exactly for the six workflow statuses,
writing `status` and `updatedAt`; any other string, `shipped` and `closed`
included, yields the Invalid Status error. -/
theorem setOrderStatus_spec (o : Order) (s : String) (now : Nat) :
    setOrderStatus (some o) s now
      = (if validStatuses.contains s
         then .updated { o with status := s, updatedAt := now }
         else .invalidStatus)
    ∧ validStatuses
        = ["pending", "confirmed", "processing", "ready", "completed", "cancelled"]
    ∧ setOrderStatus (some o) "shipped" now = .invalidStatus
    ∧ setOrderStatus (some o) "closed" now = .invalidStatus
    ∧ ({ o with status := s, updatedAt := now }).status = s
    ∧ ({ o with status := s, updatedAt := now }).updatedAt = now := by
  have hsh : validStatuses.contains "shipped" = false := by decide
  have hcl : validStatuses.contains "closed" = false := by decide
  refine ⟨?_, rfl, ?_, ?_, rfl, rfl⟩
  · by_cases hc : validStatuses.contains s = true <;>
      simp [setOrderStatus, hc]
  · simp [setOrderStatus, hsh]
    decide
  · simp [setOrderStatus, hcl]
    decide

/-- C8: closeOrder is Not Found on an absent order and otherwise, for any
current status, writes status `closed` and `closedAt` while leaving items,
wishlistItems, orderCode and clientId untouched. -/
theorem closeOrder_spec (o : Order) (now : Nat) :
    closeOrder none now = .notFound
    ∧ closeOrder (some o) now
        = .closed { o with status := "closed", closedAt := some now }
    ∧ ({ o with status := "closed", closedAt := some now }).status = "closed"
    ∧ ({ o with status := "closed", closedAt := some now }).closedAt = some now
    ∧ ({ o with status := "closed", closedAt := some now }).items = o.items
    ∧ ({ o with status := "closed", closedAt := some now }).wishlistItems
        = o.wishlistItems
    ∧ ({ o with status := "closed", closedAt := some now }).orderCode = o.orderCode
    ∧ ({ o with status := "closed", closedAt := some now }).clientId = o.clientId
    ∧ ({ o with status := "closed", closedAt := some now }).updatedAt = o.updatedAt := by
  exact ⟨rfl, rfl, rfl, rfl, rfl, rfl, rfl, rfl, rfl⟩

/-- C9: generateCode always yields 8 characters drawn from the A-Z0-9
alphabet, and createOrder attaches such a code to the new pending order. -/
theorem generateOrderCode_spec (draws : Fin 8 → Fin 36) (clientId : String)
    (now : Nat) :
    (generateOrderCode draws).length = 8
    ∧ ((generateOrderCode draws).toList.all
        fun c => orderCodeChars.contains c) = true
    ∧ (orderCodeChars.all
        fun c => ('A' ≤ c ∧ c ≤ 'Z') ∨ ('0' ≤ c ∧ c ≤ '9')) = true
    ∧ (createOrder clientId now draws).orderCode = some (generateOrderCode draws)
    ∧ (createOrder clientId now draws).status = "pending"
    ∧ (createOrder clientId now draws).items = [] := by
  refine ⟨?_, ?_, by decide, rfl, rfl, rfl⟩
  · show (List.ofFn _).length = 8
    simp
  · rw [List.all_eq_true]
    intro c hc
    show orderCodeChars.contains c = true
    have : c ∈ orderCodeChars := by
      have hmem : c ∈ List.ofFn (fun i : Fin 8 =>
          orderCodeChars.get (Fin.cast (by decide) (draws i))) := hc
      rw [List.mem_ofFn] at hmem
      obtain ⟨i, hi⟩ := hmem
      rw [← hi]
      exact List.get_mem _ _ _
    exact List.elem_eq_true_of_mem this

end MiTienda

namespace MiTienda

theorem spliceStart_of_nonneg_lt (len : Nat) (i : Int) (h0 : ¬ i < 0)
    (h1 : i < (len : Int)) : spliceStart len i = i.toNat := by
  unfold spliceStart
  rw [if_neg h0]
  have : i.toNat ≤ len := by omega
  exact Nat.min_eq_left this

/-- C6: removeOrderItem on an existing order deletes exactly the item at an
in-range integer index, shifting later items left by one and leaving
wishlistItems untouched; an out-of-range integer index yields the Invalid
Index error with no write. -/
theorem removeOrderItem_spec (o : Order) (i : Int) (now : Nat) :
    removeOrderItem (some o) (.int i) now
      = (if i < 0 ∨ (o.items.length : Int) ≤ i then .invalidIndex
         else .deleted { o with
            items := o.items.take i.toNat ++ o.items.drop (i.toNat + 1),
            updatedAt := now })
    ∧ ({ o with items := o.items.take i.toNat ++ o.items.drop (i.toNat + 1),
                updatedAt := now }).wishlistItems = o.wishlistItems
    ∧ removeOrderItem none (.int i) now = .notFound := by
  refine ⟨?_, rfl, rfl⟩
  by_cases hc : i < 0 ∨ (o.items.length : Int) ≤ i
  · rw [if_pos hc]
    have hb : (JSIdx.ltZero (.int i) || JSIdx.geLen (.int i) o.items.length) = true := by
      rcases hc with h | h <;> simp [JSIdx.ltZero, JSIdx.geLen, h]
    simp [removeOrderItem, hb]
  · rw [if_neg hc]
    push_neg at hc
    obtain ⟨h0, h1⟩ := hc
    have hb : (JSIdx.ltZero (.int i) || JSIdx.geLen (.int i) o.items.length) = false := by
      simp [JSIdx.ltZero, JSIdx.geLen]
      omega
    have hs : spliceStart o.items.length i = i.toNat :=
      spliceStart_of_nonneg_lt _ _ (by omega) h1
    simp [removeOrderItem, hb, splice1, JSIdx.toInteger, hs]

theorem updateOrderItem_not_invalidIndex (o : Order) (index : JSIdx)
    (q : Option Int) (lt : Option ListType) (now : Nat)
    (h : (index.ltZero || index.geLen o.items.length) = false) :
    updateOrderItem (some o) index q lt now ≠ .invalidIndex := by
  simp only [updateOrderItem, h, Bool.false_eq_true, if_false]
  intro hcon
  repeat' split at hcon
  all_goals exact UpdateOutcome.noConfusion hcon

/-- C10: a NaN itemIndex (parseInt of a non-numeric segment) passes the
bounds check of both handlers: removeOrderItem then removes the item at
position 0, and updateOrderItem never reports Invalid Index. -/
theorem nanIndex_spec (o : Order) (now : Nat) (h : o.items ≠ []) :
    removeOrderItem (some o) .nan now
        = .deleted { o with items := o.items.drop 1, updatedAt := now }
    ∧ removeOrderItem (some o) .nan now ≠ .invalidIndex
    ∧ ({ o with items := o.items.drop 1, updatedAt := now }).items.length + 1
        = o.items.length
    ∧ ∀ (q : Option Int) (lt : Option ListType),
        updateOrderItem (some o) .nan q lt now ≠ .invalidIndex := by
  have hb : (JSIdx.ltZero .nan || JSIdx.geLen .nan o.items.length) = false := rfl
  have hr : removeOrderItem (some o) .nan now
      = .deleted { o with items := o.items.drop 1, updatedAt := now } := by
    simp [removeOrderItem, hb, splice1, spliceStart, JSIdx.toInteger]
  refine ⟨hr, by simp [hr], ?_, fun q lt => updateOrderItem_not_invalidIndex o .nan q lt now hb⟩
  have : o.items.length ≠ 0 := fun hlen => h (List.eq_nil_of_length_eq_zero hlen)
  simp only [List.length_drop]
  omega

end MiTienda

namespace MiTienda

/-- C1: evaluating the update handler on an order holding `itemA` in
`items` and `itemB` in `wishlistItems`, a move to `buy` at the in-range
index 0 moves nothing: both lists are written back unchanged, because the
guard `!items.includes(items[index])` is false at every in-range index. -/
theorem updateOrderItem_buyMove_eval :
    updateOrderItem (some sampleOrder) (.int 0) none (some .buy) 7
        = .updated { sampleOrder with updatedAt := 7 }
    ∧ ({ sampleOrder with updatedAt := 7 }).items = [itemA]
    ∧ ({ sampleOrder with updatedAt := 7 }).wishlistItems = [itemB]
    ∧ sampleOrder.wishlistItems = [itemB]
    ∧ sampleOrder.items = [itemA] := by decide

/-- C2 fails as stated: index 0 is out of range for the (empty) wishlist
of `orderEmptyWishlist`, yet a move to `buy` at index 0 does not produce
the Invalid Index error, because the bounds check always uses `items`. -/
theorem updateOrderItem_bounds_counterexample :
    ((0 : Int) < 0 ∨ (orderEmptyWishlist.wishlistItems.length : Int) ≤ 0)
    ∧ updateOrderItem (some orderEmptyWishlist) (.int 0) none (some .buy) 7
        ≠ .invalidIndex := by decide

/-- C2 amended: for an integer index, updateOrderItem on an existing order
reports Invalid Index exactly when the index is out of range for `items`,
whatever the requested quantity or listType. -/
theorem updateOrderItem_invalidIndex_iff (o : Order) (i : Int)
    (q : Option Int) (lt : Option ListType) (now : Nat) :
    updateOrderItem (some o) (.int i) q lt now = .invalidIndex
      ↔ (i < 0 ∨ (o.items.length : Int) ≤ i) := by
  constructor
  · intro hcon
    by_contra hc
    push_neg at hc
    obtain ⟨h0, h1⟩ := hc
    have hb : (JSIdx.ltZero (.int i)
        || JSIdx.geLen (.int i) o.items.length) = false := by
      simp only [JSIdx.ltZero, JSIdx.geLen, Bool.or_eq_false_iff,
        decide_eq_false_iff_not]
      omega
    exact updateOrderItem_not_invalidIndex o _ q lt now hb hcon
  · intro hc
    have hb : (JSIdx.ltZero (.int i)
        || JSIdx.geLen (.int i) o.items.length) = true := by
      rcases hc with h | h <;> simp [JSIdx.ltZero, JSIdx.geLen, h]
    simp [updateOrderItem, hb]

theorem arrayUnion_of_not_mem (l : List OrderItem) (x : OrderItem)
    (h : x ∉ l) : arrayUnion l x = l ++ [x] := by
  unfold arrayUnion
  rw [if_neg]
  simpa using h

/-- C3 fails as stated: two identical adds resolved at the same server
timestamp build equal items, and arrayUnion absorbs the second, so
`items` grows by one entry, not two. -/
theorem addItemToOrder_dedup_counterexample :
    addItemToOrder (some prodA) (some emptyOrder) "SKU001" 2 none 5
        = .updated orderOneAdd
    ∧ addItemToOrder (some prodA) (some orderOneAdd) "SKU001" 2 none 5
        = .updated orderOneAdd
    ∧ orderOneAdd.items.length = emptyOrder.items.length + 1
    ∧ ¬ orderOneAdd.items.length = emptyOrder.items.length + 2 := by decide

/-- C3 amended: two adds of the same SKU, quantity and color append two
separate entries whenever the built items are not already present and the
two server timestamps differ; arrayUnion drops only an item identical to
an existing entry. -/
theorem addItemToOrder_two_appends (p : Product) (o : Order) (sku : String)
    (q : Int) (color : Option String) (t1 t2 : Nat)
    (h1 : mkOrderItem p sku q color t1 ∉ o.items)
    (h2 : mkOrderItem p sku q color t2 ∉ o.items)
    (hne : t1 ≠ t2) :
    ∃ o1 o2,
      addItemToOrder (some p) (some o) sku q color t1 = .updated o1
      ∧ addItemToOrder (some p) (some o1) sku q color t2 = .updated o2
      ∧ o1.items = o.items ++ [mkOrderItem p sku q color t1]
      ∧ o2.items = o1.items ++ [mkOrderItem p sku q color t2]
      ∧ o2.items.length = o.items.length + 2 := by
  have hne' : mkOrderItem p sku q color t2 ≠ mkOrderItem p sku q color t1 := by
    intro hc
    have := congrArg OrderItem.addedAt hc
    simp [mkOrderItem] at this
    exact hne this.symm
  have e1 : arrayUnion o.items (mkOrderItem p sku q color t1)
      = o.items ++ [mkOrderItem p sku q color t1] :=
    arrayUnion_of_not_mem _ _ h1
  have h2' : mkOrderItem p sku q color t2
      ∉ o.items ++ [mkOrderItem p sku q color t1] := by
    intro hc
    rcases List.mem_append.mp hc with hm | hm
    · exact h2 hm
    · exact hne' (List.mem_singleton.mp hm)
  have e2 : arrayUnion (o.items ++ [mkOrderItem p sku q color t1])
        (mkOrderItem p sku q color t2)
      = (o.items ++ [mkOrderItem p sku q color t1])
        ++ [mkOrderItem p sku q color t2] :=
    arrayUnion_of_not_mem _ _ h2'
  refine ⟨{ o with items := o.items ++ [mkOrderItem p sku q color t1],
                   updatedAt := t1 },
          { o with items := (o.items ++ [mkOrderItem p sku q color t1])
                     ++ [mkOrderItem p sku q color t2],
                   updatedAt := t2 }, ?_, ?_, rfl, rfl, ?_⟩
  · simp [addItemToOrder, e1]
  · simp [addItemToOrder, e2]
  · simp

theorem addItemToOrder_two_appends_witness :
    (mkOrderItem prodA "SKU001" 2 none 5 ∉ emptyOrder.items)
    ∧ (mkOrderItem prodA "SKU001" 2 none 6 ∉ emptyOrder.items)
    ∧ (5 : Nat) ≠ 6
    ∧ ∃ o1 o2,
        addItemToOrder (some prodA) (some emptyOrder) "SKU001" 2 none 5
          = .updated o1
        ∧ addItemToOrder (some prodA) (some o1) "SKU001" 2 none 6
          = .updated o2
        ∧ o1.items = emptyOrder.items ++ [mkOrderItem prodA "SKU001" 2 none 5]
        ∧ o2.items = o1.items ++ [mkOrderItem prodA "SKU001" 2 none 6]
        ∧ o2.items.length = emptyOrder.items.length + 2 :=
  ⟨by decide, by decide, by decide,
    addItemToOrder_two_appends prodA emptyOrder "SKU001" 2 none 5 6
      (by decide) (by decide) (by decide)⟩

/-- C7: on a valid index, an update with quantity 0 writes the zero as-is:
the item keeps its position in `items` (same length, same other entries)
with quantity 0, and the schema accepts quantity 0. -/
theorem updateOrderItem_quantityZero_spec (o : Order) (i : Nat) (now : Nat)
    (h : i < o.items.length) :
    updateOrderItem (some o) (.int i) (some 0) none now
      = .updated { o with
          items := o.items.set i { o.items.get ⟨i, h⟩ with quantity := 0 },
          updatedAt := now }
    ∧ (o.items.set i { o.items.get ⟨i, h⟩ with quantity := 0 }).length
        = o.items.length
    ∧ (o.items.set i { o.items.get ⟨i, h⟩ with quantity := 0 }).get? i
        = some { o.items.get ⟨i, h⟩ with quantity := 0 }
    ∧ ({ o with
          items := o.items.set i { o.items.get ⟨i, h⟩ with quantity := 0 },
          updatedAt := now }).wishlistItems = o.wishlistItems
    ∧ updateOrderItemSchemaAccepts (some 0) = true := by
  refine ⟨?_, by simp, ?_, rfl, rfl⟩
  · have hb : (JSIdx.ltZero (.int (i : Int))
        || JSIdx.geLen (.int (i : Int)) o.items.length) = false := by
      simp only [JSIdx.ltZero, JSIdx.geLen, Bool.or_eq_false_iff,
        decide_eq_false_iff_not]
      omega
    have hnn : ¬ ((i : Int) < 0) := by omega
    simp [updateOrderItem, hb, jsSetQuantity, hnn, Int.toNat_natCast,
      List.get?_eq_getElem?, List.getElem?_eq_getElem, List.get_eq_getElem, h]
  · rw [List.get?_eq_getElem?, List.getElem?_set_self']
    simp [List.getElem?_eq_getElem, h]

theorem updateOrderItem_quantityZero_witness :
    0 < sampleOrder.items.length
    ∧ updateOrderItem (some sampleOrder) (.int 0) (some 0) none 7
      = .updated { sampleOrder with
          items := sampleOrder.items.set 0
            { sampleOrder.items.get ⟨0, by decide⟩ with quantity := 0 },
          updatedAt := 7 } :=
  ⟨by decide,
    (updateOrderItem_quantityZero_spec sampleOrder 0 7 (by decide)).1⟩

theorem nanIndex_witness :
    sampleOrder.items ≠ []
    ∧ removeOrderItem (some sampleOrder) .nan 7
      = .deleted { sampleOrder with items := sampleOrder.items.drop 1,
                                    updatedAt := 7 } :=
  ⟨by decide, (nanIndex_spec sampleOrder 7 (by decide)).1⟩

end MiTienda
